import Mathlib

/-!
Verification of the reactor core in src/src/HttpClient.cpp (project httpp).

Each Manager member function is embedded as a pure function producing the ordered
list of observable effects (calls into libcurl, boost::asio and the thread pool)
that the C++ body performs, with the behaviour of the external collaborators
(libcurl return codes, the completion queue, configureRequest outcomes) supplied
as explicit oracle inputs.
-/

namespace HTTPP

/-- curl socket interest constant CURL_POLL_NONE. -/
def CURL_POLL_NONE : Int := 0

/-- curl socket interest constant CURL_POLL_IN. -/
def CURL_POLL_IN : Int := 1

/-- curl socket interest constant CURL_POLL_OUT. -/
def CURL_POLL_OUT : Int := 2

/-- curl socket interest constant CURL_POLL_INOUT. -/
def CURL_POLL_INOUT : Int := 3

/-- curl socket interest constant CURL_POLL_REMOVE. -/
def CURL_POLL_REMOVE : Int := 4

/-- sentinel socket value passed to curl_multi_socket_action on a timeout pseudo-action. -/
def CURL_SOCKET_TIMEOUT : Int := -1

/-- CURLM return code for success (CURLM_OK). -/
def CURLM_OK : Int := 0

/-- per-request connection state visible to the reactor: its identity (standing in for
the Connection object address, which is also the CURLINFO_PRIVATE value) and the native
handle of its tcp socket. -/
structure Conn where
  id : Nat
  sock : Int
  deriving DecidableEq, Repr

/-- one message popped from curl_multi_info_read: whether msg is CURLMSG_DONE, the owning
connection recovered through CURLINFO_PRIVATE, the terminal result data.result, and the
return code the subsequent curl_multi_remove_handle call yields for this easy handle. -/
structure Msg where
  isDone : Bool
  conn : Nat
  result : Int
  removeRc : Int
  deriving DecidableEq, Repr

/-- oracle for the transfer engine at one step call: the return code and the
still-running count reported by curl_multi_socket_action, and the queue that
curl_multi_info_read drains afterwards. -/
structure Engine where
  stepRc : Int
  stillRunning : Int
  msgs : List Msg
  deriving DecidableEq, Repr

/-- observable effects of the manager code, one constructor per external call in
HttpClient.cpp. armRead c a w and armWrite c a w record an async_read_some or
async_write_some armed on the socket of connection c whose completion handler invokes
performOp for connection c with action a, and w tells whether that handler was wrapped
in the strand. timerArm ms w records timer.expires_from_now(ms) plus timer.async_wait
whose completion handler is timer_cb, with w telling whether that handler was wrapped
in the strand. setPromise c e records a successful set_exception or set_value on the
promise of connection c. futureError c records a set_exception call on an already
satisfied promise, which raises std::future_error out of the surrounding callback.
throwOut m records any other exception propagating out of the callback context. -/
inductive Ev where
  | socketAction (sock : Int) (action : Int)
  | timerCancel
  | timerArm (ms : Int) (wrapped : Bool)
  | armRead (conn : Nat) (action : Int) (wrapped : Bool)
  | armWrite (conn : Nat) (action : Int) (wrapped : Bool)
  | assign (sock : Int) (conn : Nat)
  | unregister (conn : Nat)
  | postPool (conn : Nat) (result : Int)
  | addHandle (conn : Nat)
  | setPromise (conn : Nat) (err : String)
  | futureError (conn : Nat)
  | logError (msg : String)
  | throwOut (msg : String)
  deriving DecidableEq, Repr

/-- body of the while loop of Manager::checkHandles for one message returned by
curl_multi_info_read: on CURLMSG_DONE, recover the connection, call
curl_multi_remove_handle (logging on failure), and post the finalize task
conn.buildResponse(result) to the thread pool. -/
def checkHandlesMsg (m : Msg) : List Ev :=
  if m.isDone then
    Ev.unregister m.conn ::
      ((if m.removeRc ≠ CURLM_OK then [Ev.logError "Cannot unregister easy handle"] else []) ++
        [Ev.postPool m.conn m.result])
  else []

/-- Manager::checkHandles: drain the completion queue of the engine. -/
def checkHandles : List Msg → List Ev
  | [] => []
  | m :: rest => checkHandlesMsg m ++ checkHandles rest

/-- Manager::performOp: the step invocation for one connection and interest pair. Calls
curl_multi_socket_action on the socket of the connection; on a non CURLM_OK return code
throws std::runtime_error out of the callback; otherwise drains the completion queue and,
when still_running is at most zero, cancels the tick timer. -/
def performOp (conn : Conn) (action : Int) (eng : Engine) : List Ev :=
  Ev.socketAction conn.sock action ::
    (if eng.stepRc ≠ CURLM_OK then [Ev.throwOut "curl_multi_strerror"]
     else
       checkHandles eng.msgs ++ (if eng.stillRunning ≤ 0 then [Ev.timerCancel] else []))

/-- Manager::timer_cb: the completion handler of the tick timer. When the wait was not
cancelled, calls curl_multi_socket_action with CURL_SOCKET_TIMEOUT; on a non CURLM_OK
return code logs and throws std::runtime_error out of the callback; otherwise drains the
completion queue. -/
def timer_cb (error : Bool) (eng : Engine) : List Ev :=
  if error then []
  else
    Ev.socketAction CURL_SOCKET_TIMEOUT 0 ::
      (if eng.stepRc ≠ CURLM_OK then
        [Ev.logError "Error curl multi", Ev.throwOut "timer_cb error"]
      else checkHandles eng.msgs)

/-- Manager::curl_timer_cb: the CURLMOPT_TIMERFUNCTION handler for a timeout hint of
timeout_ms milliseconds. Cancels the timer, then either arms it again (the async_wait
handler std::bind(timer_cb, manager, _1) is not wrapped in the strand) or invokes
timer_cb synchronously with a success error code. -/
def curl_timer_cb (timeout_ms : Int) (eng : Engine) : List Ev :=
  Ev.timerCancel ::
    (if timeout_ms > 0 then [Ev.timerArm timeout_ms false]
     else timer_cb false eng)

/-- Manager::poll: arm the async I O operations matching the requested interest on the
socket of the connection; every completion handler is strand.wrap of
std::bind(performOp, this, connection, action). -/
def poll (conn : Conn) (action : Int) : List Ev :=
  if action = CURL_POLL_IN then [Ev.armRead conn.id action true]
  else if action = CURL_POLL_OUT then [Ev.armWrite conn.id action true]
  else if action = CURL_POLL_INOUT then
    [Ev.armRead conn.id action true, Ev.armWrite conn.id action true]
  else []

/-- Manager::sock_cb: the CURLMOPT_SOCKETFUNCTION handler. socket_private is the
per-socket slot curl hands back, privConn is the connection CURLINFO_PRIVATE yields for
the easy handle and getinfoRc the return code of that curl_easy_getinfo call. On
CURL_POLL_REMOVE, returns at once. On the first sight of the socket, recovers the
connection and associates it to the socket with curl_multi_assign. Then polls. -/
def sock_cb (s : Int) (what : Int) (socket_private : Option Conn) (privConn : Conn)
    (getinfoRc : Int) : List Ev :=
  if what = CURL_POLL_REMOVE then []
  else
    match socket_private with
    | none =>
      if getinfoRc ≠ 0 then [Ev.throwOut "Cannot get private info"]
      else Ev.assign s privConn.id :: poll privConn what
    | some c => poll c what

/-- the lambda Manager::handleRequest posts on the strand for connection conn. configErr
is the configuration error conn.configureRequest raises, if any, and addRc the return
code of curl_multi_add_handle. The promise of conn is fresh when the task runs. When
configureRequest throws, the catch block fulfills the promise with that error and the
body then falls through to curl_multi_add_handle anyway; when curl_multi_add_handle then
also fails, the second set_exception raises std::future_error out of the callback. -/
def submitTask (conn : Nat) (configErr : Option String) (addRc : Int) : List Ev :=
  match configErr with
  | none =>
    Ev.addHandle conn ::
      (if addRc ≠ CURLM_OK then
        [Ev.logError "Error scheduling a new request", Ev.setPromise conn "curl_multi_strerror"]
      else [])
  | some e =>
    Ev.setPromise conn e :: Ev.addHandle conn ::
      (if addRc ≠ CURLM_OK then
        [Ev.logError "Error scheduling a new request", Ev.futureError conn]
      else [])

/-- effects of HttpClient construction and destruction. -/
inductive CEv where
  | createPool
  | createReactor
  | bootstrapCurl
  | startPool
  deriving DecidableEq, Repr

/-- process-wide state: whether the once flag curl_init_flag has already run init_curl. -/
structure Proc where
  curlInitDone : Bool
  deriving DecidableEq, Repr

/-- HttpClient::HttpClient(nb_thread): the member initializers build the thread pool and
the Manager, whose constructor calls curl_multi_init; the constructor body then runs
std::call_once(curl_init_flag, init_curl) and starts the pool. -/
def HttpClient_ctor (p : Proc) : Proc × List CEv :=
  (⟨true⟩,
    [CEv.createPool, CEv.createReactor] ++
      (if p.curlInitDone then [] else [CEv.bootstrapCurl]) ++ [CEv.startPool])

/-- construct n HttpClient instances in sequence in one process, accumulating effects. -/
def constructMany : Nat → Proc → Proc × List CEv
  | 0, p => (p, [])
  | n + 1, p =>
    let r := HTTPP.HttpClient_ctor p
    let r2 := constructMany n r.1
    (r2.1, r.2 ++ r2.2)

/-- effects of the outer HttpClient::handleRequest entry point. -/
inductive REv where
  | reuseConn (c : Nat)
  | createConn (c : Nat)
  | connInit (c : Nat)
  | attachRequest (c : Nat)
  | getFuture (c : Nat)
  | submitToReactor (c : Nat)
  deriving DecidableEq, Repr

/-- HttpClient::handleRequest(method, request): move the connection carried by the
request if there is one, else create a fresh one bound to the io service; call init,
attach the request, take the future from the promise, then hand the connection to the
Manager. Returns the identity of the connection whose future the caller receives,
together with the ordered effects. -/
def client_handleRequest (reqConn : Option Nat) (freshId : Nat) : Nat × List REv :=
  match reqConn with
  | some c =>
    (c,
      [REv.reuseConn c, REv.connInit c, REv.attachRequest c, REv.getFuture c,
        REv.submitToReactor c])
  | none =>
    (freshId,
      [REv.createConn freshId, REv.connInit freshId, REv.attachRequest freshId,
        REv.getFuture freshId, REv.submitToReactor freshId])

/-- discriminator: tick timer events. -/
def isTimerEv : Ev → Bool
  | Ev.timerCancel => true
  | Ev.timerArm _ _ => true
  | _ => false

/-- discriminator: successful promise fulfillments. -/
def isSetPromise : Ev → Bool
  | Ev.setPromise _ _ => true
  | _ => false

/-- discriminator: exceptions escaping the callback context. -/
def isEscape : Ev → Bool
  | Ev.throwOut _ => true
  | Ev.futureError _ => true
  | _ => false

/-- discriminator: registrations of a completion handler that runs outside the strand. -/
def isUnwrappedHandler : Ev → Bool
  | Ev.timerArm _ w => !w
  | Ev.armRead _ _ w => !w
  | Ev.armWrite _ _ w => !w
  | _ => false

/-- number of attempts (successful or raising std::future_error) to fulfill the promise
of connection c recorded in a trace. -/
def promiseAttempts (c : Nat) (t : List Ev) : Nat :=
  t.countP fun e =>
    match e with
    | Ev.setPromise c2 _ => c2 == c
    | Ev.futureError c2 => c2 == c
    | _ => false

/-- number of tick timer waits outstanding after a trace runs, starting from n
outstanding: a cancel removes all pending waits, an arm adds one. -/
def outstanding : Nat → List Ev → Nat
  | n, [] => n
  | _, Ev.timerCancel :: t => outstanding 0 t
  | n, Ev.timerArm _ _ :: t => outstanding (n + 1) t
  | n, _ :: t => outstanding n t

/-- index of the first event satisfying p (length of the list when absent). -/
def idxOfFirst (p : REv → Bool) : List REv → Nat
  | [] => 0
  | e :: t => if p e then 0 else idxOfFirst p t + 1

/-- discriminator: the getFuture effect, whatever the connection. -/
def isGetFutureEv : REv → Bool
  | REv.getFuture _ => true
  | _ => false

/-- discriminator: the submitToReactor effect, whatever the connection. -/
def isSubmitEv : REv → Bool
  | REv.submitToReactor _ => true
  | _ => false

theorem checkHandlesMsg_shape (m : Msg) (e : Ev) (he : e ∈ checkHandlesMsg m) :
    e = Ev.unregister m.conn ∨ e = Ev.logError "Cannot unregister easy handle" ∨
      e = Ev.postPool m.conn m.result := by
  unfold checkHandlesMsg at he
  split_ifs at he <;> simp [List.mem_cons, List.mem_append] at he <;> tauto

theorem checkHandles_events (ms : List Msg) (e : Ev) (he : e ∈ checkHandles ms) :
    ∃ m ∈ ms, e ∈ checkHandlesMsg m := by
  induction ms with
  | nil => cases he
  | cons m rest ih =>
    rw [checkHandles] at he
    rcases List.mem_append.mp he with h | h
    · exact ⟨m, List.mem_cons_self m rest, h⟩
    · obtain ⟨m2, hm2, hm3⟩ := ih h
      exact ⟨m2, List.mem_cons_of_mem m hm2, hm3⟩

theorem mem_checkHandles (ms : List Msg) (m : Msg) (hm : m ∈ ms) (e : Ev)
    (he : e ∈ checkHandlesMsg m) : e ∈ checkHandles ms := by
  induction ms with
  | nil => cases hm
  | cons m0 rest ih =>
    rw [checkHandles]
    rcases List.mem_cons.mp hm with h | h
    · exact List.mem_append.mpr (Or.inl (h ▸ he))
    · exact List.mem_append.mpr (Or.inr (ih h))

theorem checkHandles_no_timer (ms : List Msg) (e : Ev) (he : e ∈ checkHandles ms) :
    isTimerEv e = false := by
  obtain ⟨m, _, h⟩ := checkHandles_events ms e he
  rcases checkHandlesMsg_shape m e h with h2 | h2 | h2 <;> subst h2 <;> rfl

theorem checkHandles_no_fulfill (ms : List Msg) (e : Ev) (he : e ∈ checkHandles ms) :
    isSetPromise e = false ∧ isEscape e = false := by
  obtain ⟨m, _, h⟩ := checkHandles_events ms e he
  rcases checkHandlesMsg_shape m e h with h2 | h2 | h2 <;> subst h2 <;> exact ⟨rfl, rfl⟩

theorem timer_cb_no_timer (err : Bool) (eng : Engine) (e : Ev) (he : e ∈ timer_cb err eng) :
    isTimerEv e = false := by
  unfold timer_cb at he
  split_ifs at he with h1 h2
  · cases he
  · rcases List.mem_cons.mp he with h | h
    · subst h; rfl
    · simp [List.mem_cons] at h
      rcases h with h | h <;> subst h <;> rfl
  · rcases List.mem_cons.mp he with h | h
    · subst h; rfl
    · exact checkHandles_no_timer eng.msgs e h

theorem timer_cb_cancel_not_mem (err : Bool) (eng : Engine) :
    Ev.timerCancel ∉ timer_cb err eng := by
  intro h
  have := timer_cb_no_timer err eng Ev.timerCancel h
  simp [isTimerEv] at this

theorem timer_free_outstanding (t : List Ev) (h : ∀ e ∈ t, isTimerEv e = false) (n : Nat) :
    outstanding n t = n := by
  induction t generalizing n with
  | nil => rfl
  | cons e t ih =>
    have he : isTimerEv e = false := h e (List.mem_cons_self e t)
    have ht : ∀ e2 ∈ t, isTimerEv e2 = false := fun e2 m2 => h e2 (List.mem_cons_of_mem e m2)
    cases e <;> simp [isTimerEv] at he ⊢ <;> exact ih ht n

/-- C4: on a timeout hint of M milliseconds from the engine, the handler first cancels
the pending tick timer; when M is positive it arms a new timer for M milliseconds, and
when M is at most zero it invokes timer_cb, the step for the timeout pseudo-action,
synchronously; starting from any number of outstanding timer waits, at most one is
outstanding afterwards. -/
theorem C4_timeout_hint_single_timer (m : Int) (eng : Engine) (n : Nat) :
    curl_timer_cb m eng =
      Ev.timerCancel :: (if m > 0 then [Ev.timerArm m false] else timer_cb false eng) ∧
    outstanding n (curl_timer_cb m eng) ≤ 1 := by
  refine ⟨rfl, ?_⟩
  unfold curl_timer_cb
  split_ifs with h
  · simp [outstanding]
  · have hz : outstanding n (Ev.timerCancel :: timer_cb false eng) =
        outstanding 0 (timer_cb false eng) := rfl
    rw [hz, timer_free_outstanding (timer_cb false eng) (timer_cb_no_timer false eng) 0]
    exact Nat.zero_le 1

/-- C5 counterexample: the timeout pseudo-action step (timer_cb) with the engine
reporting zero active transfers does not cancel the tick timer, refuting the claim that
every step invocation cancels the timer whenever zero active transfers remain. -/
theorem C5_timeout_step_without_cancel :
    (Engine.mk CURLM_OK 0 []).stillRunning ≤ 0 ∧
    Ev.timerCancel ∉ timer_cb false (Engine.mk CURLM_OK 0 []) := by decide

/-- C5 amended: a step invocation for a (Connection, interest) pair (performOp) drives
the engine, drains the completion queue and cancels the tick timer exactly when the
engine reports zero active transfers remaining; the timeout pseudo-action (timer_cb)
drains the completion queue but never cancels the tick timer. -/
theorem C5_step_drains_and_cancels (conn : Conn) (action : Int) (eng : Engine)
    (h : eng.stepRc = CURLM_OK) :
    performOp conn action eng =
      Ev.socketAction conn.sock action ::
        (checkHandles eng.msgs ++ (if eng.stillRunning ≤ 0 then [Ev.timerCancel] else [])) ∧
    (Ev.timerCancel ∈ performOp conn action eng ↔ eng.stillRunning ≤ 0) ∧
    (∀ err : Bool, Ev.timerCancel ∉ timer_cb err eng) := by
  have heq : performOp conn action eng =
      Ev.socketAction conn.sock action ::
        (checkHandles eng.msgs ++ (if eng.stillRunning ≤ 0 then [Ev.timerCancel] else [])) := by
    simp [performOp, h]
  refine ⟨heq, ?_, fun err => timer_cb_cancel_not_mem err eng⟩
  rw [heq]
  constructor
  · intro hm
    rcases List.mem_cons.mp hm with h2 | h2
    · cases h2
    · rcases List.mem_append.mp h2 with h3 | h3
      · have := checkHandles_no_timer eng.msgs Ev.timerCancel h3
        simp [isTimerEv] at this
      · by_contra hst
        rw [if_neg hst] at h3
        cases h3
  · intro hst
    apply List.mem_cons_of_mem
    apply List.mem_append.mpr
    right
    rw [if_pos hst]
    exact List.mem_singleton.mpr rfl

/-- C5 witness: the amended theorem applied at a concrete engine with CURLM_OK, zero
still-running transfers and an empty completion queue. -/
theorem C5_step_drains_and_cancels_witness :
    (Engine.mk CURLM_OK 0 []).stepRc = CURLM_OK ∧
    (performOp (Conn.mk 1 5) CURL_POLL_IN (Engine.mk CURLM_OK 0 []) =
      Ev.socketAction (Conn.mk 1 5).sock CURL_POLL_IN ::
        (checkHandles (Engine.mk CURLM_OK 0 []).msgs ++
          (if (Engine.mk CURLM_OK 0 []).stillRunning ≤ 0 then [Ev.timerCancel] else [])) ∧
    (Ev.timerCancel ∈ performOp (Conn.mk 1 5) CURL_POLL_IN (Engine.mk CURLM_OK 0 []) ↔
      (Engine.mk CURLM_OK 0 []).stillRunning ≤ 0) ∧
    (∀ err : Bool, Ev.timerCancel ∉ timer_cb err (Engine.mk CURLM_OK 0 []))) :=
  ⟨rfl, C5_step_drains_and_cancels (Conn.mk 1 5) CURL_POLL_IN (Engine.mk CURLM_OK 0 []) rfl⟩

/-- C1: regression for the code bug. When configureRequest fails, the submission lambda
fulfills the promise with the configuration error but, lacking an early return, still
calls curl_multi_add_handle, so the transfer is registered with the engine even though
the claim states it never is. -/
theorem C1_config_failure_still_registers :
    Ev.setPromise 7 "configuration error" ∈
      submitTask 7 (some "configuration error") CURLM_OK ∧
    Ev.addHandle 7 ∈ submitTask 7 (some "configuration error") CURLM_OK := by decide

/-- C3: regression for the code bug. When configureRequest fails and the subsequent
curl_multi_add_handle call is rejected, the submission lambda attempts to fulfill the
same promise twice; the second set_exception raises std::future_error, so the promise is
not fulfilled exactly once by a single applicable case. -/
theorem C3_promise_double_fulfillment :
    promiseAttempts 7 (submitTask 7 (some "configuration error") 1) = 2 ∧
    Ev.futureError 7 ∈ submitTask 7 (some "configuration error") 1 := by decide

/-- C2 counterexample: an engine step error (curl_multi_socket_action returning a non
CURLM_OK code) inside performOp is thrown out of the callback context and no promise is
fulfilled, refuting the claim that every per-request error after construction is
delivered solely through the promise and never thrown out of a callback. -/
theorem C2_step_error_thrown_out :
    Ev.throwOut "curl_multi_strerror" ∈
      performOp (Conn.mk 3 7) CURL_POLL_IN (Engine.mk 1 1 []) ∧
    (performOp (Conn.mk 3 7) CURL_POLL_IN (Engine.mk 1 1 [])).countP isSetPromise = 0 := by
  decide

/-- Modelled from the spec: Connection::buildResponse lives in Connection.cpp, which is
not among the sources here. Spec section 4.3 says it converts the terminal engine status
into a response or an error and fulfills the completion promise of its own connection
exactly once; section 7 says a transfer failure (a non-success terminal status) is
delivered via that promise, carrying the engine status. A zero result stands for the
success status, any other terminal result for a transfer failure. -/
def buildResponse (conn : Nat) (result : Int) : List Ev :=
  if result = 0 then [Ev.setPromise conn "response"]
  else [Ev.setPromise conn "transfer error"]

/-- C2 amended: configuration failures and registration rejections in the submission
path only ever touch the promise of the originating connection, and a transfer failure
is delivered by the finalize task (buildResponse) solely through the promise of the
owning connection, fulfilled exactly once with nothing escaping; no such error affects
any other request. Engine step errors in performOp and timer_cb, however, are thrown out
of the callback context and fulfill no promise at all. -/
theorem C2_error_routing (c : Nat) (cfg : Option String) (addRc : Int) (conn : Conn)
    (action : Int) (eng : Engine) (r : Int) (h : eng.stepRc ≠ CURLM_OK) :
    (∀ e ∈ submitTask c cfg addRc, ∀ c2 s, e = Ev.setPromise c2 s → c2 = c) ∧
    (∀ e ∈ submitTask c cfg addRc, ∀ c2, e = Ev.futureError c2 → c2 = c) ∧
    (buildResponse c r).countP isSetPromise = 1 ∧
    (∀ e ∈ buildResponse c r, ∀ c2 s, e = Ev.setPromise c2 s → c2 = c) ∧
    (∀ e ∈ buildResponse c r, isEscape e = false) ∧
    performOp conn action eng =
      [Ev.socketAction conn.sock action, Ev.throwOut "curl_multi_strerror"] ∧
    Ev.throwOut "timer_cb error" ∈ timer_cb false eng ∧
    (timer_cb false eng).countP isSetPromise = 0 := by
  have htc : timer_cb false eng =
      [Ev.socketAction CURL_SOCKET_TIMEOUT 0, Ev.logError "Error curl multi",
        Ev.throwOut "timer_cb error"] := by
    simp [timer_cb, h]
  refine ⟨?_, ?_, ?_, ?_, ?_, ?_, ?_, ?_⟩
  · intro e he c2 s hes
    subst hes
    cases cfg <;> (unfold submitTask at he; split_ifs at he <;>
      simp [List.mem_cons] at he <;> tauto)
  · intro e he c2 hes
    subst hes
    cases cfg <;> (unfold submitTask at he; split_ifs at he <;>
      simp [List.mem_cons] at he <;> tauto)
  · unfold buildResponse
    split_ifs <;> rfl
  · intro e he c2 s hes
    subst hes
    unfold buildResponse at he
    split_ifs at he <;> simp [List.mem_singleton] at he <;> tauto
  · intro e he
    unfold buildResponse at he
    split_ifs at he <;> simp [List.mem_singleton] at he <;> subst he <;> rfl
  · unfold performOp
    rw [if_pos h]
  · rw [htc]
    simp [List.mem_cons]
  · rw [htc]
    rfl

/-- C2 witness: the amended theorem applied at a concrete submission for connection 9
whose configuration fails and whose registration is rejected, a concrete failing
terminal result 56, and a concrete engine whose step call fails. -/
theorem C2_error_routing_witness :
    (Engine.mk 1 1 []).stepRc ≠ CURLM_OK ∧
    ((∀ e ∈ submitTask 9 (some "bad request") 1, ∀ c2 s, e = Ev.setPromise c2 s → c2 = 9) ∧
    (∀ e ∈ submitTask 9 (some "bad request") 1, ∀ c2, e = Ev.futureError c2 → c2 = 9) ∧
    (buildResponse 9 56).countP isSetPromise = 1 ∧
    (∀ e ∈ buildResponse 9 56, ∀ c2 s, e = Ev.setPromise c2 s → c2 = 9) ∧
    (∀ e ∈ buildResponse 9 56, isEscape e = false) ∧
    performOp (Conn.mk 2 4) CURL_POLL_OUT (Engine.mk 1 1 []) =
      [Ev.socketAction (Conn.mk 2 4).sock CURL_POLL_OUT, Ev.throwOut "curl_multi_strerror"] ∧
    Ev.throwOut "timer_cb error" ∈ timer_cb false (Engine.mk 1 1 []) ∧
    (timer_cb false (Engine.mk 1 1 [])).countP isSetPromise = 0) :=
  ⟨by decide,
    C2_error_routing 9 (some "bad request") 1 (Conn.mk 2 4) CURL_POLL_OUT
      (Engine.mk 1 1 []) 56 (by decide)⟩

/-- C8: regression for the code bug. The tick timer completion handler timer_cb, which
mutates reactor-owned state (drives the engine and drains completions), is registered by
curl_timer_cb through timer.async_wait without strand.wrap, so it runs outside the
serialization token. -/
theorem C8_timer_handler_outside_strand :
    Ev.timerArm 5 false ∈ curl_timer_cb 5 (Engine.mk CURLM_OK 1 []) ∧
    (curl_timer_cb 5 (Engine.mk CURLM_OK 1 [])).countP isUnwrappedHandler = 1 := by decide

/-- C9: regression for the code bug. Across three constructions in one process the
bootstrap runs exactly once, but within the first construction the Reactor (and its
curl_multi_init call) is created before the bootstrap call_once runs, not after. -/
theorem C9_bootstrap_after_reactor_creation :
    (constructMany 3 (Proc.mk false)).2.count CEv.bootstrapCurl = 1 ∧
    (HttpClient_ctor (Proc.mk false)).2 =
      [CEv.createPool, CEv.createReactor, CEv.bootstrapCurl, CEv.startPool] ∧
    (HttpClient_ctor (Proc.mk false)).2.indexOf CEv.createReactor <
      (HttpClient_ctor (Proc.mk false)).2.indexOf CEv.bootstrapCurl := by decide

/-- C6: completion draining unregisters every finished transfer from the engine and
posts its finalize task (which fulfills the promise) to the thread pool instead of
running it inline: the drain itself never fulfills a promise and never lets an exception
escape, whatever the outcome of curl_multi_remove_handle, whose failure is only logged. -/
theorem C6_drain_posts_finalize (eng : Engine) (m : Msg) (hm : m ∈ eng.msgs)
    (hd : m.isDone = true) :
    Ev.unregister m.conn ∈ checkHandles eng.msgs ∧
    Ev.postPool m.conn m.result ∈ checkHandles eng.msgs ∧
    (∀ e ∈ checkHandles eng.msgs, isSetPromise e = false ∧ isEscape e = false) := by
  refine ⟨?_, ?_, fun e he => checkHandles_no_fulfill eng.msgs e he⟩
  · apply mem_checkHandles eng.msgs m hm
    simp [checkHandlesMsg, hd]
  · apply mem_checkHandles eng.msgs m hm
    unfold checkHandlesMsg
    rw [if_pos hd]
    apply List.mem_cons_of_mem
    apply List.mem_append.mpr
    right
    exact List.mem_singleton.mpr rfl

/-- C6 witness: the theorem applied at an engine whose queue holds one finished transfer
for connection 9 with terminal result 23 and a failing curl_multi_remove_handle. -/
theorem C6_drain_posts_finalize_witness :
    Msg.mk true 9 23 1 ∈ (Engine.mk CURLM_OK 1 [Msg.mk true 9 23 1]).msgs ∧
    (Msg.mk true 9 23 1).isDone = true ∧
    (Ev.unregister (Msg.mk true 9 23 1).conn ∈
        checkHandles (Engine.mk CURLM_OK 1 [Msg.mk true 9 23 1]).msgs ∧
      Ev.postPool (Msg.mk true 9 23 1).conn (Msg.mk true 9 23 1).result ∈
        checkHandles (Engine.mk CURLM_OK 1 [Msg.mk true 9 23 1]).msgs ∧
      ∀ e ∈ checkHandles (Engine.mk CURLM_OK 1 [Msg.mk true 9 23 1]).msgs,
        isSetPromise e = false ∧ isEscape e = false) :=
  ⟨by decide, by decide,
    C6_drain_posts_finalize (Engine.mk CURLM_OK 1 [Msg.mk true 9 23 1]) (Msg.mk true 9 23 1)
      (by decide) (by decide)⟩

/-- C7: the socket interest callback does nothing on CURL_POLL_REMOVE; on first sight of
a socket it recovers the owning connection and associates it to the socket before
arming; once a connection is known it arms exactly the async read and/or write
operations matching the interest, each completion handler naming that connection and the
observed interest and being wrapped in the strand. -/
theorem C7_socket_interest_dispatch (s what : Int) (pc : Conn)
    (hne : what ≠ CURL_POLL_REMOVE) :
    (∀ sp : Option Conn, ∀ g : Int, sock_cb s CURL_POLL_REMOVE sp pc g = []) ∧
    sock_cb s what none pc 0 = Ev.assign s pc.id :: poll pc what ∧
    (∀ c : Conn, sock_cb s what (some c) pc 0 = poll c what) ∧
    (∀ c : Conn, poll c what =
      (if what = CURL_POLL_IN ∨ what = CURL_POLL_INOUT then [Ev.armRead c.id what true]
       else []) ++
      (if what = CURL_POLL_OUT ∨ what = CURL_POLL_INOUT then [Ev.armWrite c.id what true]
       else [])) := by
  refine ⟨?_, ?_, ?_, ?_⟩
  · intro sp g
    simp [sock_cb]
  · simp [sock_cb, hne]
  · intro c
    simp [sock_cb, hne]
  · intro c
    unfold poll
    simp only [CURL_POLL_IN, CURL_POLL_OUT, CURL_POLL_INOUT]
    split_ifs <;> first
      | rfl
      | (exfalso; omega)

/-- C7 witness: the theorem applied at socket 11 with interest CURL_POLL_INOUT and
owning connection 4. -/
theorem C7_socket_interest_dispatch_witness :
    (11 : Int) ≠ CURL_POLL_REMOVE ∧
    ((∀ sp : Option Conn, ∀ g : Int, sock_cb 11 CURL_POLL_REMOVE sp (Conn.mk 4 11) g = []) ∧
    sock_cb 11 CURL_POLL_INOUT none (Conn.mk 4 11) 0 =
      Ev.assign 11 (Conn.mk 4 11).id :: poll (Conn.mk 4 11) CURL_POLL_INOUT ∧
    (∀ c : Conn, sock_cb 11 CURL_POLL_INOUT (some c) (Conn.mk 4 11) 0 =
      poll c CURL_POLL_INOUT) ∧
    (∀ c : Conn, poll c CURL_POLL_INOUT =
      (if CURL_POLL_INOUT = CURL_POLL_IN ∨ CURL_POLL_INOUT = CURL_POLL_INOUT then
        [Ev.armRead c.id CURL_POLL_INOUT true]
       else []) ++
      (if CURL_POLL_INOUT = CURL_POLL_OUT ∨ CURL_POLL_INOUT = CURL_POLL_INOUT then
        [Ev.armWrite c.id CURL_POLL_INOUT true]
       else []))) :=
  ⟨by decide, C7_socket_interest_dispatch 11 CURL_POLL_INOUT (Conn.mk 4 11) (by decide)⟩

/-- C10: the outer entry point reuses the connection carried by the request when present
and otherwise creates a fresh one, runs both through the same event sequence, takes the
future of that connection, and only afterwards hands the connection to the Manager, so
the caller always receives the future of its own connection before submission occurs. -/
theorem C10_future_taken_before_submission (rq : Option Nat) (freshId : Nat) :
    (client_handleRequest rq freshId).1 = rq.getD freshId ∧
    REv.getFuture (rq.getD freshId) ∈ (client_handleRequest rq freshId).2 ∧
    REv.submitToReactor (rq.getD freshId) ∈ (client_handleRequest rq freshId).2 ∧
    idxOfFirst isGetFutureEv (client_handleRequest rq freshId).2 <
      idxOfFirst isSubmitEv (client_handleRequest rq freshId).2 := by
  cases rq <;>
    simp [client_handleRequest, idxOfFirst, isGetFutureEv, isSubmitEv, Option.getD]

end HTTPP
